import Mathlib

/-!
Verification of the delegating accessor layer in
`geoapi-java-python/src/main/python/opengis/bridge/java/referencing.py`.

The Python module wraps foreign (Java-side) objects reached through the
jpy bridge.  We embed the bridge shallowly: a foreign value is a `JValue`
(which may be the null reference), a foreign accessor invocation is a
`JCall` recording the accessor name and its arguments, and the foreign
runtime is a function `JValue → JCall → Except JError JValue`.  Each
Python method is transcribed into a Lean function that returns the
result of the call, the post-state of the wrapper (the Python methods
never assign to `self`, so the transcription returns `self` unchanged),
and the list of foreign invocations performed, in order.
-/

namespace GeoapiBridge

/-- A value living on the foreign (Java) side of the bridge: the null
reference, a string, an integer, or an opaque object handle. -/
inductive JValue where
  | jnull
  | jstring (s : String)
  | jint (n : Int)
  | jobject (id : Nat)
deriving DecidableEq, Repr

/-- A foreign accessor invocation: the accessor name together with its
arguments, exactly as the Python module spells them on the proxy. -/
inductive JCall where
  | getName
  | toWKT
  | toString
  | getEllipsoid
  | getPrimeMeridian
  | getAbbreviation
  | getDirection
  | getUnit
  | getDimension
  | getAxis (dim : Int)
  | getCoordinateSystem
  | getDatum
  | getBaseCRS
  | getCode
deriving DecidableEq, Repr

/-- A failure surfaced by the bridge: the proxy lacks the requested
method, or the foreign side raised an exception. -/
inductive JError where
  | noSuchMethod (accessor : String)
  | javaException (message : String)
deriving DecidableEq, Repr

/-- The foreign runtime as seen through the bridge: invoking an accessor
on a foreign value either returns a foreign value (possibly `jnull`) or
fails with a `JError`. -/
structure JavaRuntime where
  invoke : JValue → JCall → Except JError JValue

/-- The log of foreign invocations performed by one Python-side
operation: each entry is the receiver handle and the call made on it. -/
abbrev Trace := List (JValue × JCall)

/-- One bridge call, as written `self._proxy.accessor(args)` in Python:
it yields whatever the runtime returns and logs exactly one foreign
invocation. -/
def jcall (rt : JavaRuntime) (p : JValue) (c : JCall) :
    Except JError JValue × Trace :=
  (rt.invoke p c, [(p, c)])

/-- Modelled from the spec: the class `Identifier` is imported from
`opengis.bridge.java.metadata`, a module of this repository whose code
is not part of the sources at hand.  Per the spec it is a delegating
wrapper over a foreign identifier object ("optionally wraps the result
in another delegating wrapper (e.g., wrapping a returned identifier
object)"), holding only the proxy reference. -/
structure Identifier where
  _proxy : JValue
deriving DecidableEq, Repr

/-- Modelled from the spec: the constructor of the missing
`opengis.bridge.java.metadata.Identifier` class; like every wrapper of
the delegating accessor layer it stores the handle and performs no
foreign call. -/
def Identifier.init (proxy : JValue) : Identifier × Trace :=
  (⟨proxy⟩, [])

/-- Modelled from the spec: the `code` accessor of the missing
`Identifier` class.  The test asserts `crs.name.code` equals the name
returned by the foreign side, and per the spec every accessor forwards
to the foreign getter-style method of matching name, here `getCode`. -/
def Identifier.code (rt : JavaRuntime) (self : Identifier) :
    Except JError JValue × Identifier × Trace :=
  let (r, t) := jcall rt self._proxy JCall.getCode
  (r, self, t)

/-- `class IdentifiedObject`: holds the proxy reference stored by
`__init__`. -/
structure IdentifiedObject where
  _proxy : JValue
deriving DecidableEq, Repr

/-- `IdentifiedObject.__init__(self, proxy)`: stores the given handle in
`self._proxy`; no foreign call is made, nothing can fail. -/
def IdentifiedObject.init (proxy : JValue) : IdentifiedObject × Trace :=
  (⟨proxy⟩, [])

/-- `IdentifiedObject.name`:
`return Identifier(self._proxy.getName())`. -/
def IdentifiedObject.name (rt : JavaRuntime) (self : IdentifiedObject) :
    Except JError Identifier × IdentifiedObject × Trace :=
  let (r, t) := jcall rt self._proxy JCall.getName
  match r with
  | Except.error e => (Except.error e, self, t)
  | Except.ok v =>
      let (ident, t2) := Identifier.init v
      (Except.ok ident, self, t ++ t2)

/-- `IdentifiedObject.to_wkt`: `return self._proxy.toWKT()`. -/
def IdentifiedObject.to_wkt (rt : JavaRuntime) (self : IdentifiedObject) :
    Except JError JValue × IdentifiedObject × Trace :=
  let (r, t) := jcall rt self._proxy JCall.toWKT
  (r, self, t)

/-- `IdentifiedObject.__str__`: `return self._proxy.toString()`. -/
def IdentifiedObject.str (rt : JavaRuntime) (self : IdentifiedObject) :
    Except JError JValue × IdentifiedObject × Trace :=
  let (r, t) := jcall rt self._proxy JCall.toString
  (r, self, t)

/-- `class GeodeticDatum(IdentifiedObject, ...)`. -/
structure GeodeticDatum extends IdentifiedObject
deriving DecidableEq, Repr

/-- `GeodeticDatum.__init__(self, proxy)`: `super().__init__(proxy)`. -/
def GeodeticDatum.init (proxy : JValue) : GeodeticDatum × Trace :=
  let (io, t) := IdentifiedObject.init proxy
  (⟨io⟩, t)

/-- Modelled from the spec: the body of the `GeodeticDatum.ellipsoid`
property is missing from the source (only its declaration appears); the
spec lists `getEllipsoid` among the foreign accessors this layer calls,
and states every wrapper method invokes exactly one corresponding
foreign accessor of matching name. -/
def GeodeticDatum.ellipsoid (rt : JavaRuntime) (self : GeodeticDatum) :
    Except JError JValue × GeodeticDatum × Trace :=
  let (r, t) := jcall rt self._proxy JCall.getEllipsoid
  (r, self, t)

/-- Modelled from the spec: the body of the
`GeodeticDatum.prime_meridian` property is missing from the source
(only its declaration appears); per the spec it invokes the foreign
`getPrimeMeridian` accessor on the wrapped proxy. -/
def GeodeticDatum.prime_meridian (rt : JavaRuntime) (self : GeodeticDatum) :
    Except JError JValue × GeodeticDatum × Trace :=
  let (r, t) := jcall rt self._proxy JCall.getPrimeMeridian
  (r, self, t)

/-- `class CoordinateSystemAxis(IdentifiedObject, ...)`. -/
structure CoordinateSystemAxis extends IdentifiedObject
deriving DecidableEq, Repr

/-- `CoordinateSystemAxis.__init__(self, proxy)`:
`super().__init__(proxy)`. -/
def CoordinateSystemAxis.init (proxy : JValue) : CoordinateSystemAxis × Trace :=
  let (io, t) := IdentifiedObject.init proxy
  (⟨io⟩, t)

/-- `CoordinateSystemAxis.abbreviation`:
`return self._proxy.getAbbreviation()`. -/
def CoordinateSystemAxis.abbreviation (rt : JavaRuntime) (self : CoordinateSystemAxis) :
    Except JError JValue × CoordinateSystemAxis × Trace :=
  let (r, t) := jcall rt self._proxy JCall.getAbbreviation
  (r, self, t)

/-- Modelled from the spec: the body of the
`CoordinateSystemAxis.direction` property is missing from the source
(only its declaration appears); per the spec it invokes the foreign
`getDirection` accessor on the wrapped proxy. -/
def CoordinateSystemAxis.direction (rt : JavaRuntime) (self : CoordinateSystemAxis) :
    Except JError JValue × CoordinateSystemAxis × Trace :=
  let (r, t) := jcall rt self._proxy JCall.getDirection
  (r, self, t)

/-- Modelled from the spec: the body of the `CoordinateSystemAxis.unit`
property is missing from the source (only its declaration appears); per
the spec it invokes the foreign `getUnit` accessor on the wrapped
proxy. -/
def CoordinateSystemAxis.unit (rt : JavaRuntime) (self : CoordinateSystemAxis) :
    Except JError JValue × CoordinateSystemAxis × Trace :=
  let (r, t) := jcall rt self._proxy JCall.getUnit
  (r, self, t)

/-- `class CoordinateSystem(IdentifiedObject, ...)`. -/
structure CoordinateSystem extends IdentifiedObject
deriving DecidableEq, Repr

/-- `CoordinateSystem.__init__(self, proxy)`:
`super().__init__(proxy)`. -/
def CoordinateSystem.init (proxy : JValue) : CoordinateSystem × Trace :=
  let (io, t) := IdentifiedObject.init proxy
  (⟨io⟩, t)

/-- `CoordinateSystem.dimension`: `return self._proxy.getDimension()`. -/
def CoordinateSystem.dimension (rt : JavaRuntime) (self : CoordinateSystem) :
    Except JError JValue × CoordinateSystem × Trace :=
  let (r, t) := jcall rt self._proxy JCall.getDimension
  (r, self, t)

/-- `CoordinateSystem.axis(self, dim: int)`:
`return self._proxy.getAxis(dim)` — the integer argument is forwarded
unchanged, with no bounds check. -/
def CoordinateSystem.axis (rt : JavaRuntime) (self : CoordinateSystem) (dim : Int) :
    Except JError JValue × CoordinateSystem × Trace :=
  let (r, t) := jcall rt self._proxy (JCall.getAxis dim)
  (r, self, t)

/-- `class CartesianCS(CoordinateSystem, ...)`. -/
structure CartesianCS extends CoordinateSystem
deriving DecidableEq, Repr

/-- `CartesianCS.__init__(self, proxy)`: `super().__init__(proxy)`. -/
def CartesianCS.init (proxy : JValue) : CartesianCS × Trace :=
  let (cs, t) := CoordinateSystem.init proxy
  (⟨cs⟩, t)

/-- `class EllipsoidalCS(CoordinateSystem, ...)`. -/
structure EllipsoidalCS extends CoordinateSystem
deriving DecidableEq, Repr

/-- `EllipsoidalCS.__init__(self, proxy)`: `super().__init__(proxy)`. -/
def EllipsoidalCS.init (proxy : JValue) : EllipsoidalCS × Trace :=
  let (cs, t) := CoordinateSystem.init proxy
  (⟨cs⟩, t)

/-- `class CoordinateReferenceSystem(IdentifiedObject, ...)`. -/
structure CoordinateReferenceSystem extends IdentifiedObject
deriving DecidableEq, Repr

/-- `CoordinateReferenceSystem.__init__(self, proxy)`:
`super().__init__(proxy)`. -/
def CoordinateReferenceSystem.init (proxy : JValue) :
    CoordinateReferenceSystem × Trace :=
  let (io, t) := IdentifiedObject.init proxy
  (⟨io⟩, t)

/-- `CoordinateReferenceSystem.coordinate_system`:
`return self._proxy.getCoordinateSystem()` — the foreign result is
returned raw, not wrapped. -/
def CoordinateReferenceSystem.coordinate_system (rt : JavaRuntime)
    (self : CoordinateReferenceSystem) :
    Except JError JValue × CoordinateReferenceSystem × Trace :=
  let (r, t) := jcall rt self._proxy JCall.getCoordinateSystem
  (r, self, t)

/-- `CoordinateReferenceSystem.datum`:
`return self._proxy.getDatum()` — the foreign result is returned raw,
not wrapped. -/
def CoordinateReferenceSystem.datum (rt : JavaRuntime)
    (self : CoordinateReferenceSystem) :
    Except JError JValue × CoordinateReferenceSystem × Trace :=
  let (r, t) := jcall rt self._proxy JCall.getDatum
  (r, self, t)

/-- `CoordinateReferenceSystem.name`, inherited from
`IdentifiedObject`: the inherited body runs on the same object. -/
def CoordinateReferenceSystem.name (rt : JavaRuntime)
    (self : CoordinateReferenceSystem) :
    Except JError Identifier × CoordinateReferenceSystem × Trace :=
  let (r, io, t) := IdentifiedObject.name rt self.toIdentifiedObject
  (r, ⟨io⟩, t)

/-- `class GeographicCRS(CoordinateReferenceSystem, ...)`. -/
structure GeographicCRS extends CoordinateReferenceSystem
deriving DecidableEq, Repr

/-- `GeographicCRS.__init__(self, proxy)`: `super().__init__(proxy)`. -/
def GeographicCRS.init (proxy : JValue) : GeographicCRS × Trace :=
  let (crs, t) := CoordinateReferenceSystem.init proxy
  (⟨crs⟩, t)

/-- `class ProjectedCRS(IdentifiedObject, ...)` — it derives directly
from `IdentifiedObject`. -/
structure ProjectedCRS extends IdentifiedObject
deriving DecidableEq, Repr

/-- `ProjectedCRS.__init__(self, proxy)`: `super().__init__(proxy)`. -/
def ProjectedCRS.init (proxy : JValue) : ProjectedCRS × Trace :=
  let (io, t) := IdentifiedObject.init proxy
  (⟨io⟩, t)

/-- `ProjectedCRS.base_crs`: `return self._proxy.getBaseCRS()` — the
foreign result is returned raw, not wrapped. -/
def ProjectedCRS.base_crs (rt : JavaRuntime) (self : ProjectedCRS) :
    Except JError JValue × ProjectedCRS × Trace :=
  let (r, t) := jcall rt self._proxy JCall.getBaseCRS
  (r, self, t)

/-- `GeodeticDatum.__str__`, inherited from `IdentifiedObject`: the
inherited body runs on the same object. -/
def GeodeticDatum.str (rt : JavaRuntime) (self : GeodeticDatum) :
    Except JError JValue × GeodeticDatum × Trace :=
  let (r, io, t) := IdentifiedObject.str rt self.toIdentifiedObject
  (r, ⟨io⟩, t)

/-- `CoordinateSystemAxis.__str__`, inherited from `IdentifiedObject`. -/
def CoordinateSystemAxis.str (rt : JavaRuntime) (self : CoordinateSystemAxis) :
    Except JError JValue × CoordinateSystemAxis × Trace :=
  let (r, io, t) := IdentifiedObject.str rt self.toIdentifiedObject
  (r, ⟨io⟩, t)

/-- `CoordinateSystem.__str__`, inherited from `IdentifiedObject`. -/
def CoordinateSystem.str (rt : JavaRuntime) (self : CoordinateSystem) :
    Except JError JValue × CoordinateSystem × Trace :=
  let (r, io, t) := IdentifiedObject.str rt self.toIdentifiedObject
  (r, ⟨io⟩, t)

/-- `CartesianCS.__str__`, inherited through `CoordinateSystem`. -/
def CartesianCS.str (rt : JavaRuntime) (self : CartesianCS) :
    Except JError JValue × CartesianCS × Trace :=
  let (r, cs, t) := CoordinateSystem.str rt self.toCoordinateSystem
  (r, ⟨cs⟩, t)

/-- `EllipsoidalCS.__str__`, inherited through `CoordinateSystem`. -/
def EllipsoidalCS.str (rt : JavaRuntime) (self : EllipsoidalCS) :
    Except JError JValue × EllipsoidalCS × Trace :=
  let (r, cs, t) := CoordinateSystem.str rt self.toCoordinateSystem
  (r, ⟨cs⟩, t)

/-- `CoordinateReferenceSystem.__str__`, inherited from
`IdentifiedObject`. -/
def CoordinateReferenceSystem.str (rt : JavaRuntime)
    (self : CoordinateReferenceSystem) :
    Except JError JValue × CoordinateReferenceSystem × Trace :=
  let (r, io, t) := IdentifiedObject.str rt self.toIdentifiedObject
  (r, ⟨io⟩, t)

/-- `GeographicCRS.__str__`, inherited through
`CoordinateReferenceSystem`. -/
def GeographicCRS.str (rt : JavaRuntime) (self : GeographicCRS) :
    Except JError JValue × GeographicCRS × Trace :=
  let (r, crs, t) := CoordinateReferenceSystem.str rt self.toCoordinateReferenceSystem
  (r, ⟨crs⟩, t)

/-- `ProjectedCRS.__str__`, inherited from `IdentifiedObject`. -/
def ProjectedCRS.str (rt : JavaRuntime) (self : ProjectedCRS) :
    Except JError JValue × ProjectedCRS × Trace :=
  let (r, io, t) := IdentifiedObject.str rt self.toIdentifiedObject
  (r, ⟨io⟩, t)

/-- A concrete foreign runtime used to evaluate the theorems on closed
inputs: handle 1 is a coordinate reference system whose name identifier
is handle 2, whose code is the string of the reference scenario. -/
def testRuntime : JavaRuntime :=
  ⟨fun p c =>
    match p, c with
    | JValue.jobject 1, JCall.getName => Except.ok (JValue.jobject 2)
    | JValue.jobject 1, JCall.toString => Except.ok (JValue.jstring "WGS 84 / World Mercator crs")
    | JValue.jobject 1, JCall.toWKT => Except.ok (JValue.jstring "PROJCRS")
    | JValue.jobject 2, JCall.getCode =>
        Except.ok (JValue.jstring "WGS 84 / World Mercator")
    | _, _ => Except.error (JError.noSuchMethod "unavailable")⟩

/-- A concrete foreign runtime on which every bridge call fails with
the same foreign-side exception. -/
def errRuntime : JavaRuntime :=
  ⟨fun _ _ => Except.error (JError.javaException "boom")⟩

/-- A concrete foreign runtime on which every bridge call returns the
null reference. -/
def nullRuntime : JavaRuntime :=
  ⟨fun _ _ => Except.ok JValue.jnull⟩

/-- The trace of `IdentifiedObject.name` is the single `getName`
invocation on the wrapped proxy, whether the foreign call succeeds or
fails. -/
theorem IdentifiedObject.name_trace (rt : JavaRuntime) (io : IdentifiedObject) :
    (IdentifiedObject.name rt io).2.2 = [(io._proxy, JCall.getName)] := by
  unfold IdentifiedObject.name jcall
  cases rt.invoke io._proxy JCall.getName <;> simp [Identifier.init]

/-- C1: every wrapper method performs exactly one foreign accessor
invocation, of the matching name and arity, on the wrapped proxy, with
the caller's arguments forwarded untransformed; in particular
`GeodeticDatum.ellipsoid` invokes `getEllipsoid`,
`GeodeticDatum.prime_meridian` invokes `getPrimeMeridian`,
`CoordinateSystemAxis.direction` invokes `getDirection`, and
`CoordinateSystemAxis.unit` invokes `getUnit`. -/
theorem wrapper_methods_invoke_one_matching_accessor
    (rt : JavaRuntime) (io : IdentifiedObject) (gd : GeodeticDatum)
    (ax : CoordinateSystemAxis) (cs : CoordinateSystem)
    (crs : CoordinateReferenceSystem) (pc : ProjectedCRS) (dim : Int) :
    (IdentifiedObject.name rt io).2.2 = [(io._proxy, JCall.getName)] ∧
    (IdentifiedObject.to_wkt rt io).2.2 = [(io._proxy, JCall.toWKT)] ∧
    (IdentifiedObject.str rt io).2.2 = [(io._proxy, JCall.toString)] ∧
    (GeodeticDatum.ellipsoid rt gd).2.2 = [(gd._proxy, JCall.getEllipsoid)] ∧
    (GeodeticDatum.prime_meridian rt gd).2.2 = [(gd._proxy, JCall.getPrimeMeridian)] ∧
    (CoordinateSystemAxis.abbreviation rt ax).2.2 = [(ax._proxy, JCall.getAbbreviation)] ∧
    (CoordinateSystemAxis.direction rt ax).2.2 = [(ax._proxy, JCall.getDirection)] ∧
    (CoordinateSystemAxis.unit rt ax).2.2 = [(ax._proxy, JCall.getUnit)] ∧
    (CoordinateSystem.dimension rt cs).2.2 = [(cs._proxy, JCall.getDimension)] ∧
    (CoordinateSystem.axis rt cs dim).2.2 = [(cs._proxy, JCall.getAxis dim)] ∧
    (CoordinateReferenceSystem.coordinate_system rt crs).2.2
      = [(crs._proxy, JCall.getCoordinateSystem)] ∧
    (CoordinateReferenceSystem.datum rt crs).2.2 = [(crs._proxy, JCall.getDatum)] ∧
    (ProjectedCRS.base_crs rt pc).2.2 = [(pc._proxy, JCall.getBaseCRS)] := by
  refine ⟨IdentifiedObject.name_trace rt io, ?_, ?_, ?_, ?_, ?_, ?_, ?_, ?_, ?_, ?_, ?_, ?_⟩ <;>
    simp [IdentifiedObject.to_wkt, IdentifiedObject.str, GeodeticDatum.ellipsoid,
      GeodeticDatum.prime_meridian, CoordinateSystemAxis.abbreviation,
      CoordinateSystemAxis.direction, CoordinateSystemAxis.unit,
      CoordinateSystem.dimension, CoordinateSystem.axis,
      CoordinateReferenceSystem.coordinate_system, CoordinateReferenceSystem.datum,
      ProjectedCRS.base_crs, jcall]

/-- C3: on every wrapper class of the layer, the string conversion
inherited from `IdentifiedObject.__str__` returns exactly what the
foreign object's own `toString` returns, unmodified. -/
theorem str_equals_foreign_toString
    (rt : JavaRuntime) (io : IdentifiedObject) (gd : GeodeticDatum)
    (ax : CoordinateSystemAxis) (cs : CoordinateSystem) (ccs : CartesianCS)
    (ecs : EllipsoidalCS) (crs : CoordinateReferenceSystem)
    (gcrs : GeographicCRS) (pc : ProjectedCRS) :
    (IdentifiedObject.str rt io).1 = rt.invoke io._proxy JCall.toString ∧
    (GeodeticDatum.str rt gd).1 = rt.invoke gd._proxy JCall.toString ∧
    (CoordinateSystemAxis.str rt ax).1 = rt.invoke ax._proxy JCall.toString ∧
    (CoordinateSystem.str rt cs).1 = rt.invoke cs._proxy JCall.toString ∧
    (CartesianCS.str rt ccs).1 = rt.invoke ccs._proxy JCall.toString ∧
    (EllipsoidalCS.str rt ecs).1 = rt.invoke ecs._proxy JCall.toString ∧
    (CoordinateReferenceSystem.str rt crs).1 = rt.invoke crs._proxy JCall.toString ∧
    (GeographicCRS.str rt gcrs).1 = rt.invoke gcrs._proxy JCall.toString ∧
    (ProjectedCRS.str rt pc).1 = rt.invoke pc._proxy JCall.toString := by
  refine ⟨rfl, rfl, rfl, rfl, rfl, rfl, rfl, rfl, rfl⟩

/-- C2: wrapping a foreign coordinate-reference-system handle whose
`getName` accessor yields an identifier whose `getCode` accessor yields
the string "WGS 84 / World Mercator" gives a wrapper whose name
attribute is an identifier whose code is that same string, unmodified. -/
theorem crs_name_code_preserved
    (rt : JavaRuntime) (handle ident : JValue)
    (hName : rt.invoke handle JCall.getName = Except.ok ident)
    (hCode : rt.invoke ident JCall.getCode
      = Except.ok (JValue.jstring "WGS 84 / World Mercator")) :
    ∃ w : Identifier,
      (CoordinateReferenceSystem.name rt
          (CoordinateReferenceSystem.init handle).1).1 = Except.ok w ∧
      (Identifier.code rt w).1
        = Except.ok (JValue.jstring "WGS 84 / World Mercator") := by
  refine ⟨⟨ident⟩, ?_, ?_⟩
  · simp [CoordinateReferenceSystem.name, CoordinateReferenceSystem.init,
      IdentifiedObject.init, IdentifiedObject.name, jcall, hName, Identifier.init]
  · simp [Identifier.code, jcall, hCode]

/-- Evaluation of the C2 scenario on a concrete runtime: handle 1 is
the coordinate reference system, handle 2 its name identifier. -/
theorem crs_name_code_preserved_witness :
    ∃ w : Identifier,
      (CoordinateReferenceSystem.name testRuntime
          (CoordinateReferenceSystem.init (JValue.jobject 1)).1).1 = Except.ok w ∧
      (Identifier.code testRuntime w).1
        = Except.ok (JValue.jstring "WGS 84 / World Mercator") :=
  crs_name_code_preserved testRuntime (JValue.jobject 1) (JValue.jobject 2) rfl rfl

/-- C4: constructing two wrappers of the same class around the same
handle gives wrappers that both store exactly that handle; a wrapper
holds nothing but its proxy reference (so there is no cache slot to
share), and no accessor changes any wrapper's state, so operations on
one wrapper cannot affect another through wrapper-local state. -/
theorem wrap_twice_independent (p : JValue) (rt : JavaRuntime) (dim : Int) :
    ((IdentifiedObject.init p).1)._proxy = p ∧
    ((GeodeticDatum.init p).1)._proxy = p ∧
    ((CoordinateSystemAxis.init p).1)._proxy = p ∧
    ((CoordinateSystem.init p).1)._proxy = p ∧
    ((CartesianCS.init p).1)._proxy = p ∧
    ((EllipsoidalCS.init p).1)._proxy = p ∧
    ((CoordinateReferenceSystem.init p).1)._proxy = p ∧
    ((GeographicCRS.init p).1)._proxy = p ∧
    ((ProjectedCRS.init p).1)._proxy = p ∧
    (∀ w : IdentifiedObject, w = ⟨w._proxy⟩) ∧
    (∀ w : IdentifiedObject,
      (IdentifiedObject.name rt w).2.1 = w ∧
      (IdentifiedObject.to_wkt rt w).2.1 = w ∧
      (IdentifiedObject.str rt w).2.1 = w) ∧
    (∀ w : CoordinateSystem,
      (CoordinateSystem.dimension rt w).2.1 = w ∧
      (CoordinateSystem.axis rt w dim).2.1 = w) := by
  refine ⟨rfl, rfl, rfl, rfl, rfl, rfl, rfl, rfl, rfl, fun w => rfl, fun w => ⟨?_, rfl, rfl⟩,
    fun w => ⟨rfl, rfl⟩⟩
  unfold IdentifiedObject.name jcall
  cases rt.invoke w._proxy JCall.getName <;> simp [Identifier.init]

/-- C5: every accessor is a pure re-read of the foreign object: the
wrapper state after any accessor call equals the state before, and a
repeated call of the same accessor behaves exactly as the first one
did, performing the same fresh foreign read. -/
theorem accessors_are_pure_rereads
    (rt : JavaRuntime) (io : IdentifiedObject) (gd : GeodeticDatum)
    (ax : CoordinateSystemAxis) (cs : CoordinateSystem)
    (crs : CoordinateReferenceSystem) (pc : ProjectedCRS) (dim : Int) :
    (IdentifiedObject.name rt io).2.1 = io ∧
    (IdentifiedObject.to_wkt rt io).2.1 = io ∧
    (IdentifiedObject.str rt io).2.1 = io ∧
    (GeodeticDatum.ellipsoid rt gd).2.1 = gd ∧
    (GeodeticDatum.prime_meridian rt gd).2.1 = gd ∧
    (CoordinateSystemAxis.abbreviation rt ax).2.1 = ax ∧
    (CoordinateSystemAxis.direction rt ax).2.1 = ax ∧
    (CoordinateSystemAxis.unit rt ax).2.1 = ax ∧
    (CoordinateSystem.dimension rt cs).2.1 = cs ∧
    (CoordinateSystem.axis rt cs dim).2.1 = cs ∧
    (CoordinateReferenceSystem.coordinate_system rt crs).2.1 = crs ∧
    (CoordinateReferenceSystem.datum rt crs).2.1 = crs ∧
    (ProjectedCRS.base_crs rt pc).2.1 = pc ∧
    IdentifiedObject.name rt (IdentifiedObject.name rt io).2.1
      = IdentifiedObject.name rt io ∧
    IdentifiedObject.to_wkt rt (IdentifiedObject.to_wkt rt io).2.1
      = IdentifiedObject.to_wkt rt io ∧
    IdentifiedObject.str rt (IdentifiedObject.str rt io).2.1
      = IdentifiedObject.str rt io ∧
    CoordinateSystem.dimension rt (CoordinateSystem.dimension rt cs).2.1
      = CoordinateSystem.dimension rt cs ∧
    CoordinateSystem.axis rt (CoordinateSystem.axis rt cs dim).2.1 dim
      = CoordinateSystem.axis rt cs dim := by
  have hname : (IdentifiedObject.name rt io).2.1 = io := by
    unfold IdentifiedObject.name jcall
    cases rt.invoke io._proxy JCall.getName <;> simp [Identifier.init]
  refine ⟨hname, rfl, rfl, rfl, rfl, rfl, rfl, rfl, rfl, rfl, rfl, rfl, rfl,
    by rw [hname], rfl, rfl, rfl, rfl⟩

/-- C6: whenever the underlying bridge call fails (missing proxy
method or foreign-side exception, any `JError`), every wrapper method
returns that very error unmodified — no method catches, translates or
retries; and a null foreign result is likewise passed through raw. -/
theorem bridge_failures_propagate_unmodified (rt : JavaRuntime) (e : JError) :
    (∀ io : IdentifiedObject, rt.invoke io._proxy JCall.getName = Except.error e →
      (IdentifiedObject.name rt io).1 = Except.error e) ∧
    (∀ io : IdentifiedObject, rt.invoke io._proxy JCall.toWKT = Except.error e →
      (IdentifiedObject.to_wkt rt io).1 = Except.error e) ∧
    (∀ io : IdentifiedObject, rt.invoke io._proxy JCall.toString = Except.error e →
      (IdentifiedObject.str rt io).1 = Except.error e) ∧
    (∀ gd : GeodeticDatum, rt.invoke gd._proxy JCall.getEllipsoid = Except.error e →
      (GeodeticDatum.ellipsoid rt gd).1 = Except.error e) ∧
    (∀ gd : GeodeticDatum, rt.invoke gd._proxy JCall.getPrimeMeridian = Except.error e →
      (GeodeticDatum.prime_meridian rt gd).1 = Except.error e) ∧
    (∀ ax : CoordinateSystemAxis, rt.invoke ax._proxy JCall.getAbbreviation = Except.error e →
      (CoordinateSystemAxis.abbreviation rt ax).1 = Except.error e) ∧
    (∀ ax : CoordinateSystemAxis, rt.invoke ax._proxy JCall.getDirection = Except.error e →
      (CoordinateSystemAxis.direction rt ax).1 = Except.error e) ∧
    (∀ ax : CoordinateSystemAxis, rt.invoke ax._proxy JCall.getUnit = Except.error e →
      (CoordinateSystemAxis.unit rt ax).1 = Except.error e) ∧
    (∀ cs : CoordinateSystem, rt.invoke cs._proxy JCall.getDimension = Except.error e →
      (CoordinateSystem.dimension rt cs).1 = Except.error e) ∧
    (∀ cs : CoordinateSystem, ∀ dim : Int,
      rt.invoke cs._proxy (JCall.getAxis dim) = Except.error e →
      (CoordinateSystem.axis rt cs dim).1 = Except.error e) ∧
    (∀ crs : CoordinateReferenceSystem,
      rt.invoke crs._proxy JCall.getCoordinateSystem = Except.error e →
      (CoordinateReferenceSystem.coordinate_system rt crs).1 = Except.error e) ∧
    (∀ crs : CoordinateReferenceSystem, rt.invoke crs._proxy JCall.getDatum = Except.error e →
      (CoordinateReferenceSystem.datum rt crs).1 = Except.error e) ∧
    (∀ pc : ProjectedCRS, rt.invoke pc._proxy JCall.getBaseCRS = Except.error e →
      (ProjectedCRS.base_crs rt pc).1 = Except.error e) ∧
    (∀ io : IdentifiedObject, rt.invoke io._proxy JCall.toWKT = Except.ok JValue.jnull →
      (IdentifiedObject.to_wkt rt io).1 = Except.ok JValue.jnull) := by
  refine ⟨fun io h => ?_, fun io h => ?_, fun io h => ?_, fun gd h => ?_, fun gd h => ?_,
    fun ax h => ?_, fun ax h => ?_, fun ax h => ?_, fun cs h => ?_, fun cs dim h => ?_,
    fun crs h => ?_, fun crs h => ?_, fun pc h => ?_, fun io h => ?_⟩ <;>
  simp [IdentifiedObject.name, IdentifiedObject.to_wkt, IdentifiedObject.str,
    GeodeticDatum.ellipsoid, GeodeticDatum.prime_meridian,
    CoordinateSystemAxis.abbreviation, CoordinateSystemAxis.direction,
    CoordinateSystemAxis.unit, CoordinateSystem.dimension, CoordinateSystem.axis,
    CoordinateReferenceSystem.coordinate_system, CoordinateReferenceSystem.datum,
    ProjectedCRS.base_crs, jcall, h]

/-- Evaluation of the C6 propagation on concrete runtimes: on a runtime
where every bridge call raises, every wrapper method returns that very
exception, and on a runtime returning null, `to_wkt` returns null. -/
theorem bridge_failures_propagate_unmodified_witness :
    (IdentifiedObject.name errRuntime ⟨JValue.jobject 1⟩).1
      = Except.error (JError.javaException "boom") ∧
    (IdentifiedObject.to_wkt errRuntime ⟨JValue.jobject 1⟩).1
      = Except.error (JError.javaException "boom") ∧
    (IdentifiedObject.str errRuntime ⟨JValue.jobject 1⟩).1
      = Except.error (JError.javaException "boom") ∧
    (GeodeticDatum.ellipsoid errRuntime ⟨⟨JValue.jobject 1⟩⟩).1
      = Except.error (JError.javaException "boom") ∧
    (GeodeticDatum.prime_meridian errRuntime ⟨⟨JValue.jobject 1⟩⟩).1
      = Except.error (JError.javaException "boom") ∧
    (CoordinateSystemAxis.abbreviation errRuntime ⟨⟨JValue.jobject 1⟩⟩).1
      = Except.error (JError.javaException "boom") ∧
    (CoordinateSystemAxis.direction errRuntime ⟨⟨JValue.jobject 1⟩⟩).1
      = Except.error (JError.javaException "boom") ∧
    (CoordinateSystemAxis.unit errRuntime ⟨⟨JValue.jobject 1⟩⟩).1
      = Except.error (JError.javaException "boom") ∧
    (CoordinateSystem.dimension errRuntime ⟨⟨JValue.jobject 1⟩⟩).1
      = Except.error (JError.javaException "boom") ∧
    (CoordinateSystem.axis errRuntime ⟨⟨JValue.jobject 1⟩⟩ (-1)).1
      = Except.error (JError.javaException "boom") ∧
    (CoordinateReferenceSystem.coordinate_system errRuntime ⟨⟨JValue.jobject 1⟩⟩).1
      = Except.error (JError.javaException "boom") ∧
    (CoordinateReferenceSystem.datum errRuntime ⟨⟨JValue.jobject 1⟩⟩).1
      = Except.error (JError.javaException "boom") ∧
    (ProjectedCRS.base_crs errRuntime ⟨⟨JValue.jobject 1⟩⟩).1
      = Except.error (JError.javaException "boom") ∧
    (IdentifiedObject.to_wkt nullRuntime ⟨JValue.jobject 1⟩).1
      = Except.ok JValue.jnull :=
  ⟨(bridge_failures_propagate_unmodified errRuntime (JError.javaException "boom")).1
      ⟨JValue.jobject 1⟩ rfl,
    (bridge_failures_propagate_unmodified errRuntime (JError.javaException "boom")).2.1
      ⟨JValue.jobject 1⟩ rfl,
    (bridge_failures_propagate_unmodified errRuntime (JError.javaException "boom")).2.2.1
      ⟨JValue.jobject 1⟩ rfl,
    (bridge_failures_propagate_unmodified errRuntime (JError.javaException "boom")).2.2.2.1
      ⟨⟨JValue.jobject 1⟩⟩ rfl,
    (bridge_failures_propagate_unmodified errRuntime (JError.javaException "boom")).2.2.2.2.1
      ⟨⟨JValue.jobject 1⟩⟩ rfl,
    (bridge_failures_propagate_unmodified errRuntime (JError.javaException "boom")).2.2.2.2.2.1
      ⟨⟨JValue.jobject 1⟩⟩ rfl,
    (bridge_failures_propagate_unmodified errRuntime (JError.javaException "boom")).2.2.2.2.2.2.1
      ⟨⟨JValue.jobject 1⟩⟩ rfl,
    (bridge_failures_propagate_unmodified errRuntime (JError.javaException "boom")).2.2.2.2.2.2.2.1
      ⟨⟨JValue.jobject 1⟩⟩ rfl,
    (bridge_failures_propagate_unmodified errRuntime (JError.javaException "boom")).2.2.2.2.2.2.2.2.1
      ⟨⟨JValue.jobject 1⟩⟩ rfl,
    (bridge_failures_propagate_unmodified errRuntime (JError.javaException "boom")).2.2.2.2.2.2.2.2.2.1
      ⟨⟨JValue.jobject 1⟩⟩ (-1) rfl,
    (bridge_failures_propagate_unmodified errRuntime (JError.javaException "boom")).2.2.2.2.2.2.2.2.2.2.1
      ⟨⟨JValue.jobject 1⟩⟩ rfl,
    (bridge_failures_propagate_unmodified errRuntime (JError.javaException "boom")).2.2.2.2.2.2.2.2.2.2.2.1
      ⟨⟨JValue.jobject 1⟩⟩ rfl,
    (bridge_failures_propagate_unmodified errRuntime (JError.javaException "boom")).2.2.2.2.2.2.2.2.2.2.2.2.1
      ⟨⟨JValue.jobject 1⟩⟩ rfl,
    (bridge_failures_propagate_unmodified nullRuntime (JError.javaException "boom")).2.2.2.2.2.2.2.2.2.2.2.2.2
      ⟨JValue.jobject 1⟩ rfl⟩

/-- C7 counterexample: constructing a wrapper with the null handle
succeeds, makes no check, and yields an instance whose stored proxy
reference is null — so a wrapper instance holding a null proxy does
exist, refuting the claim that none ever can. -/
theorem null_proxy_wrapper_exists :
    ((IdentifiedObject.init JValue.jnull).1)._proxy = JValue.jnull := rfl

/-- C7 amended: construction performs no null check: it stores whatever
handle it is given verbatim, the null reference included, so non-nullness
of the proxy is only an unenforced caller obligation and a wrapper
holding a null proxy can exist. -/
theorem constructors_perform_no_null_check (p : JValue) :
    ((IdentifiedObject.init p).1)._proxy = p ∧
    ((GeodeticDatum.init p).1)._proxy = p ∧
    ((CoordinateSystemAxis.init p).1)._proxy = p ∧
    ((CoordinateSystem.init p).1)._proxy = p ∧
    ((CartesianCS.init p).1)._proxy = p ∧
    ((EllipsoidalCS.init p).1)._proxy = p ∧
    ((CoordinateReferenceSystem.init p).1)._proxy = p ∧
    ((GeographicCRS.init p).1)._proxy = p ∧
    ((ProjectedCRS.init p).1)._proxy = p ∧
    ((Identifier.init p).1)._proxy = p :=
  ⟨rfl, rfl, rfl, rfl, rfl, rfl, rfl, rfl, rfl, rfl⟩

/-- C8: `CoordinateSystem.axis` passes any integer dimension, negative
and out-of-range values included, unchanged to the foreign `getAxis`
with no local bounds check, returns exactly what the foreign call
returns, and has no other effect. -/
theorem axis_forwards_any_dimension_unchecked
    (rt : JavaRuntime) (cs : CoordinateSystem) (dim : Int) :
    (CoordinateSystem.axis rt cs dim).1 = rt.invoke cs._proxy (JCall.getAxis dim) ∧
    (CoordinateSystem.axis rt cs dim).2.2 = [(cs._proxy, JCall.getAxis dim)] ∧
    (CoordinateSystem.axis rt cs dim).2.1 = cs :=
  ⟨rfl, rfl, rfl⟩

/-- C9: every constructor of the layer stores the given handle verbatim
in the single proxy field, performs no foreign call (its trace is
empty), and is a total function — it never fails, the null handle
included; any failure from a bad handle is deferred to the accessors. -/
theorem constructors_store_verbatim_without_foreign_call (p : JValue) :
    IdentifiedObject.init p = (⟨p⟩, []) ∧
    GeodeticDatum.init p = (⟨⟨p⟩⟩, []) ∧
    CoordinateSystemAxis.init p = (⟨⟨p⟩⟩, []) ∧
    CoordinateSystem.init p = (⟨⟨p⟩⟩, []) ∧
    CartesianCS.init p = (⟨⟨⟨p⟩⟩⟩, []) ∧
    EllipsoidalCS.init p = (⟨⟨⟨p⟩⟩⟩, []) ∧
    CoordinateReferenceSystem.init p = (⟨⟨p⟩⟩, []) ∧
    GeographicCRS.init p = (⟨⟨⟨p⟩⟩⟩, []) ∧
    ProjectedCRS.init p = (⟨⟨p⟩⟩, []) ∧
    Identifier.init p = (⟨p⟩, []) :=
  ⟨rfl, rfl, rfl, rfl, rfl, rfl, rfl, rfl, rfl, rfl⟩

/-- C10: only the `name` accessor adapts the foreign result into
another delegating wrapper (an `Identifier` built around the returned
handle); every other result-returning accessor hands back the raw
foreign value unwrapped. -/
theorem only_name_wraps_its_result
    (rt : JavaRuntime) (io : IdentifiedObject) (ax : CoordinateSystemAxis)
    (cs : CoordinateSystem) (crs : CoordinateReferenceSystem)
    (pc : ProjectedCRS) (dim : Int) :
    (IdentifiedObject.name rt io).1
      = (rt.invoke io._proxy JCall.getName).map (fun v => (Identifier.init v).1) ∧
    (IdentifiedObject.to_wkt rt io).1 = rt.invoke io._proxy JCall.toWKT ∧
    (CoordinateSystemAxis.abbreviation rt ax).1
      = rt.invoke ax._proxy JCall.getAbbreviation ∧
    (CoordinateSystem.dimension rt cs).1 = rt.invoke cs._proxy JCall.getDimension ∧
    (CoordinateSystem.axis rt cs dim).1 = rt.invoke cs._proxy (JCall.getAxis dim) ∧
    (CoordinateReferenceSystem.coordinate_system rt crs).1
      = rt.invoke crs._proxy JCall.getCoordinateSystem ∧
    (CoordinateReferenceSystem.datum rt crs).1 = rt.invoke crs._proxy JCall.getDatum ∧
    (ProjectedCRS.base_crs rt pc).1 = rt.invoke pc._proxy JCall.getBaseCRS := by
  refine ⟨?_, rfl, rfl, rfl, rfl, rfl, rfl, rfl⟩
  unfold IdentifiedObject.name jcall
  cases rt.invoke io._proxy JCall.getName <;> simp [Identifier.init, Except.map]

end GeoapiBridge
